import Mathlib

/-!
# Verification of the VT100 terminal interpreter (`vt100.c`)

Shallow embedding of the escape-sequence state machine of `vt100.c`
(functions `terminal_default_command_sequence`, `terminal_at_xy`,
`terminal_x_current`, `terminal_y_current`, `terminal_at_xy_relative`,
`terminal_parse_attribute`, `terminal_attribute_block_set`,
`terminal_escape_sequences`, `vt100_update`) and of the bounded byte ring
(`fifo_is_full`, `fifo_is_empty`, `fifo_count`, `fifo_push`, `fifo_pop`,
`fifo_new`).

Machine-integer conventions used throughout the embedding:
* C `unsigned` (32-bit) arithmetic that can wrap is modelled with an explicit
  `% 4294967296` (`u32`); conversion of an `unsigned` value to `int`
  (the gcc two's-complement behavior) is `int_of_u32`.
* C `size_t` subtraction `tail - 1`, the only place the 64-bit wraparound of
  `size_t` is observable, is modelled by `size_t_sub_one`.
* `t->width - 1` and `t->height - 1` (unsigned) are written with `Nat`
  truncated subtraction; the two agree whenever `width`/`height` are
  positive, which every theorem below assumes where it matters.
* The glyph array `uint8_t m[VT100_MAX_SIZE]` and the attribute array
  `vt100_attribute_t attributes[VT100_MAX_SIZE]` are modelled as lists whose
  meaningful prefix is the `t->size` cells the interpreter reads and writes;
  `memset(p, v, n)` over the first `n` cells is `memset_block`.
-/

/-- `vt100_attribute_t`: one cell's display attributes (`vt100.c`, bitfield
struct).  The two 3-bit color fields are kept as `Nat`; every value the code
stores in them is already below 8. -/
structure Vt100Attribute where
  bold : Bool
  under_score : Bool
  blink : Bool
  reverse_video : Bool
  conceal : Bool
  foreground_color : Nat
  background_color : Nat
deriving DecidableEq

/-- `terminal_state_t` (`vt100.c`): the tagged state of the escape-sequence
interpreter.  `TERMINAL_STATE_END` is included for faithfulness although
nothing ever enters it. -/
inductive TerminalState where
  | Normal
  | Csi
  | Command
  | Number1
  | Number2
  | Dectcem
  | StateEnd
deriving DecidableEq

/-- `vt100_t` (`vt100.c`): the screen model mutated by the interpreter. -/
structure Vt100 where
  cursor : Nat
  cursor_saved : Nat
  n1 : Nat
  n2 : Nat
  height : Nat
  width : Nat
  size : Nat
  state : TerminalState
  blinks : Bool
  cursor_on : Bool
  attr : Vt100Attribute
  attributes : List Vt100Attribute
  m : List Nat
  command_index : Nat
deriving DecidableEq

/-- 32-bit unsigned reduction (C `unsigned` arithmetic). -/
def u32 (n : Nat) : Nat := n % 4294967296

/-- Conversion of a 32-bit unsigned value to C `int` (gcc two's-complement
behavior). -/
def int_of_u32 (n : Nat) : Int :=
  if u32 n < 2147483648 then (u32 n : Int) else (u32 n : Int) - 4294967296

/-- C unsigned negation `-x` on a 32-bit `unsigned`. -/
def neg_u32 (n : Nat) : Nat := u32 (4294967296 - u32 n)

/-- C `size_t` decrement `n - 1` with 64-bit wraparound (used only by
`fifo_is_full`). -/
def size_t_sub_one (n : Nat) : Nat :=
  if n = 0 then 18446744073709551615 else n - 1

/-- `isdigit(c)` for a byte `c`: ASCII `'0'..'9'`. -/
def isdigit (c : Nat) : Bool := 48 ≤ c && c ≤ 57

/-- `memset(p, a, n)` over the first `n` cells of an array modelled as a
list (also models the loop of `terminal_attribute_block_set`). -/
def memset_block {α : Type} (l : List α) (n : Nat) (a : α) : List α :=
  List.replicate n a ++ l.drop n

/-- `vt100_default_attribute` (`vt100.c`): all flags clear, foreground
white (7), background black (0). -/
def vt100_default_attribute : Vt100Attribute :=
  { bold := false, under_score := false, blink := false,
    reverse_video := false, conceal := false,
    foreground_color := 7, background_color := 0 }

/-- `terminal_default_command_sequence` (`vt100.c`). -/
def terminal_default_command_sequence (t : Vt100) : Vt100 :=
  { t with n1 := 1, n2 := 1, command_index := 0 }

/-- `terminal_at_xy` (`vt100.c`).  On the clamp path `MAX(x, 0)` is the
identity on an unsigned argument and is omitted; `t->width - 1` and
`t->height - 1` are `Nat` subtraction (see the header comment). -/
def terminal_at_xy (t : Vt100) (x y : Nat) (limit_not_wrap : Bool) : Vt100 :=
  if limit_not_wrap then
    { t with cursor := min y (t.height - 1) * t.width + min x (t.width - 1) }
  else
    { t with cursor := (y % t.height) * t.width + x % t.width }

/-- `terminal_x_current` (`vt100.c`). -/
def terminal_x_current (t : Vt100) : Nat := t.cursor % t.width

/-- `terminal_y_current` (`vt100.c`). -/
def terminal_y_current (t : Vt100) : Nat := t.cursor / t.width

/-- `terminal_at_xy_relative` (`vt100.c`): the `int` arguments are clamped to
zero with `MAX(_, 0)` and handed to `terminal_at_xy` as unsigned values. -/
def terminal_at_xy_relative (t : Vt100) (x y : Int) (limit_not_wrap : Bool) : Vt100 :=
  terminal_at_xy t (max ((terminal_x_current t : Int) + x) 0).toNat
    (max ((terminal_y_current t : Int) + y) 0).toNat limit_not_wrap

/-- `terminal_parse_attribute` (`vt100.c`): one SGR parameter applied to an
attribute cell.  The `v = 0` arm (memset to zero then white-on-black) equals
`vt100_default_attribute`. -/
def terminal_parse_attribute (a : Vt100Attribute) (v : Nat) : Vt100Attribute :=
  if v = 0 then vt100_default_attribute
  else if v = 1 then { a with bold := true }
  else if v = 4 then { a with under_score := true }
  else if v = 5 then { a with blink := true }
  else if v = 7 then { a with reverse_video := true }
  else if v = 8 then { a with conceal := true }
  else
    let a1 := if 30 ≤ v ∧ v ≤ 37 then { a with foreground_color := v - 30 } else a
    if 40 ≤ v ∧ v ≤ 47 then { a1 with background_color := v - 40 } else a1

/-- The shared tail of the `'J'` arms of `terminal_escape_sequences`:
`memset(t->m, ' ', n)` followed by
`terminal_attribute_block_set(t, n, &vt100_default_attribute)` and
`goto success`. -/
def terminal_clear_block (t : Vt100) (n : Nat) : Vt100 × Bool :=
  ({ t with m := memset_block t.m n 32,
            attributes := memset_block t.attributes n vt100_default_attribute,
            state := .Normal }, false)

/-- The `TERMINAL_CSI` arm of `terminal_escape_sequences` (`vt100.c`).
The returned `Bool` is `true` exactly when the C function returns `-1`
(the `fail` label); both terminals set the state back to `Normal`. -/
def terminal_seq_csi (t : Vt100) (c : Nat) : Vt100 × Bool :=
  if c = 91 then ({ t with state := .Command }, false)
  else ({ t with state := .Normal }, true)

/-- The `TERMINAL_COMMAND` arm of `terminal_escape_sequences` (`vt100.c`):
`'s'` save cursor, `'n'` restore cursor, `'?'` to DECTCEM, `';'` to the
second number, a digit to the first number, anything else fails. -/
def terminal_seq_command (t : Vt100) (c : Nat) : Vt100 × Bool :=
  if c = 115 then ({ t with cursor_saved := t.cursor, state := .Normal }, false)
  else if c = 110 then ({ t with cursor := t.cursor_saved, state := .Normal }, false)
  else if c = 63 then
    ({ terminal_default_command_sequence t with state := .Dectcem }, false)
  else if c = 59 then
    ({ terminal_default_command_sequence t with state := .Number2 }, false)
  else if isdigit c then
    let t1 := terminal_default_command_sequence t
    ({ t1 with command_index := t1.command_index + 1, n1 := c - 48,
               state := .Number1 }, false)
  else ({ t with state := .Normal }, true)

/-- The `TERMINAL_NUMBER_1` arm of `terminal_escape_sequences` (`vt100.c`):
digit accumulation into `n1` (at most four digits), the command letters
`A B C D E F G m i n J` and the separator `';'`.  The `'J'` arm replicates
the C `switch` fallthrough: cases 3 and 2 zero the cursor and fall into
case 1, and case 1 without a supplied digit falls into case 0. -/
def terminal_seq_number_1 (t : Vt100) (c : Nat) : Vt100 × Bool :=
  if isdigit c then
    if t.command_index > 3 then ({ t with state := .Normal }, true)
    else
      ({ t with n1 := u32 (t.n1 * (if t.command_index ≠ 0 then 10 else 0) + (c - 48)),
                command_index := t.command_index + 1 }, false)
  else if c = 65 then
    ({ terminal_at_xy_relative t 0 (int_of_u32 (neg_u32 t.n1)) true with state := .Normal }, false)
  else if c = 66 then
    ({ terminal_at_xy_relative t 0 (int_of_u32 t.n1) true with state := .Normal }, false)
  else if c = 67 then
    ({ terminal_at_xy_relative t (int_of_u32 t.n1) 0 true with state := .Normal }, false)
  else if c = 68 then
    ({ terminal_at_xy_relative t (int_of_u32 (neg_u32 t.n1)) 0 true with state := .Normal }, false)
  else if c = 69 then
    ({ terminal_at_xy t 0 t.n1 false with state := .Normal }, false)
  else if c = 70 then
    ({ terminal_at_xy t 0 (neg_u32 t.n1) false with state := .Normal }, false)
  else if c = 71 then
    ({ terminal_at_xy t t.n1 (terminal_y_current t) true with state := .Normal }, false)
  else if c = 109 then
    let a := terminal_parse_attribute t.attr t.n1
    ({ t with attr := a, attributes := t.attributes.set t.cursor a,
              state := .Normal }, false)
  else if c = 105 then
    if t.n1 = 5 ∨ t.n1 = 4 then ({ t with state := .Normal }, false)
    else ({ t with state := .Normal }, true)
  else if c = 110 then
    if t.n1 = 6 then ({ t with state := .Normal }, false)
    else ({ t with state := .Normal }, true)
  else if c = 74 then
    if t.n1 = 3 ∨ t.n1 = 2 then
      let t1 := { t with cursor := 0 }
      if t1.command_index ≠ 0 then terminal_clear_block t1 t1.size
      else terminal_clear_block t1 t1.cursor
    else if t.n1 = 1 then
      if t.command_index ≠ 0 then terminal_clear_block t t.size
      else terminal_clear_block t t.cursor
    else if t.n1 = 0 then terminal_clear_block t t.cursor
    else ({ t with state := .Normal }, true)
  else if c = 59 then
    ({ t with command_index := 0, state := .Number2 }, false)
  else ({ t with state := .Normal }, true)

/-- The `TERMINAL_NUMBER_2` arm of `terminal_escape_sequences` (`vt100.c`):
digit accumulation into `n2`, then `'m'` (apply `n1` and `n2` as SGR codes)
or `'H'`/`'f'` (clamped absolute cursor positioning). -/
def terminal_seq_number_2 (t : Vt100) (c : Nat) : Vt100 × Bool :=
  if isdigit c then
    if t.command_index > 3 then ({ t with state := .Normal }, true)
    else
      ({ t with n2 := u32 (t.n2 * (if t.command_index ≠ 0 then 10 else 0) + (c - 48)),
                command_index := t.command_index + 1 }, false)
  else if c = 109 then
    let a := terminal_parse_attribute (terminal_parse_attribute t.attr t.n1) t.n2
    ({ t with attr := a, attributes := t.attributes.set t.cursor a,
              state := .Normal }, false)
  else if c = 72 ∨ c = 102 then
    ({ terminal_at_xy t t.n2 t.n1 true with state := .Normal }, false)
  else ({ t with state := .Normal }, true)

/-- The `TERMINAL_DECTCEM` arm of `terminal_escape_sequences` (`vt100.c`):
at most two digits into `n1`, then `n1` must be 25 and `'l'`/`'h'` switch
the cursor off/on. -/
def terminal_seq_dectcem (t : Vt100) (c : Nat) : Vt100 × Bool :=
  if isdigit c then
    if t.command_index > 1 then ({ t with state := .Normal }, true)
    else
      ({ t with n1 := u32 (t.n1 * (if t.command_index ≠ 0 then 10 else 0) + (c - 48)),
                command_index := t.command_index + 1 }, false)
  else if t.n1 ≠ 25 then ({ t with state := .Normal }, true)
  else if c = 108 then ({ t with cursor_on := false, state := .Normal }, false)
  else if c = 104 then ({ t with cursor_on := true, state := .Normal }, false)
  else ({ t with state := .Normal }, true)

/-- `terminal_escape_sequences` (`vt100.c`): dispatch on the parser state.
The `TERMINAL_NORMAL_MODE` arm is the C `default: fatal(...)` branch; it is
unreachable because `vt100_update` only calls the function with a
non-`Normal` state, and is modelled as a fail. -/
def terminal_escape_sequences (t : Vt100) (c : Nat) : Vt100 × Bool :=
  match t.state with
  | .Normal => ({ t with state := .Normal }, true)
  | .Csi => terminal_seq_csi t c
  | .Command => terminal_seq_command t c
  | .Number1 => terminal_seq_number_1 t c
  | .Number2 => terminal_seq_number_2 t c
  | .Dectcem => terminal_seq_dectcem t c
  | .StateEnd => ({ t with state := .Normal }, false)

/-- The Normal-mode byte dispatch of `vt100_update` (`vt100.c`):
ESC, TAB (`cursor += 8; cursor &= ~7`), CR/LF, DEL/BS, and the default
glyph write. -/
def vt100_normal_step (t : Vt100) (c : Nat) : Vt100 :=
  if c = 27 then { t with state := .Csi }
  else if c = 9 then
    { t with cursor := (t.cursor + 8) - (t.cursor + 8) % 8 }
  else if c = 13 ∨ c = 10 then
    { t with cursor := ((t.cursor + t.width) / t.width) * t.width }
  else if c = 127 ∨ c = 8 then
    let t2 := terminal_at_xy_relative t (-1) 0 true
    { t2 with m := t2.m.set t2.cursor 32 }
  else
    { t with m := t.m.set t.cursor c,
             attributes := t.attributes.set t.cursor t.attr,
             cursor := t.cursor + 1 }

/-- The overflow clear of `vt100_update` (`vt100.c`): when the cursor has
run off the end of the screen, every cell is reset to a space with the
default attribute. -/
def vt100_overflow_clear (t : Vt100) : Vt100 :=
  if t.cursor ≥ t.size then
    { t with attributes := memset_block t.attributes t.size vt100_default_attribute,
             m := memset_block t.m t.size 32 }
  else t

/-- `vt100_update` (`vt100.c`): feed one byte.  In an escape state the byte
goes to `terminal_escape_sequences` (a nonzero return re-sets the state to
`Normal`, which the fail label already did); in `Normal` mode the byte is
dispatched, the overflow clear runs, and `cursor %= size`. -/
def vt100_update (t : Vt100) (c : Nat) : Vt100 :=
  if t.state ≠ .Normal then
    let r := terminal_escape_sequences t c
    if r.2 then { r.1 with state := .Normal } else r.1
  else
    let t3 := vt100_overflow_clear (vt100_normal_step t c)
    { t3 with cursor := t3.cursor % t3.size }

/-- Feed a whole byte list, in order. -/
def feedAll (t : Vt100) (bs : List Nat) : Vt100 := bs.foldl vt100_update t

/-- A freshly initialized screen: the `vga_terminal.vt100` initializer plus
`vt100_initialize` (default attribute everywhere) plus the
`memset(m, ' ', size)` of `initialize_rendering` (`vt100.c`). -/
def init_vt100 (w h : Nat) : Vt100 :=
  { cursor := 0, cursor_saved := 0, n1 := 1, n2 := 1,
    height := h, width := w, size := w * h, state := .Normal,
    blinks := false, cursor_on := true,
    attr := vt100_default_attribute,
    attributes := List.replicate (w * h) vt100_default_attribute,
    m := List.replicate (w * h) 32,
    command_index := 0 }

/-- The 80×40 screen the program instantiates (`VGA_WIDTH`, `VGA_HEIGHT`). -/
def init80x40 : Vt100 := init_vt100 80 40

/-- The user-visible screen content: glyphs, attributes, cursor, saved
cursor, current attribute and cursor visibility (everything except the
transient parser data `state`, `n1`, `n2`, `command_index` and the
never-written `blinks`, `width`, `height`, `size`). -/
def screen_eq (s t : Vt100) : Prop :=
  s.m = t.m ∧ s.attributes = t.attributes ∧ s.cursor = t.cursor ∧
  s.cursor_saved = t.cursor_saved ∧ s.attr = t.attr ∧
  s.cursor_on = t.cursor_on

instance (s t : Vt100) : Decidable (screen_eq s t) := by
  unfold screen_eq; infer_instance

/-- A validly initialized screen in the sense of claim C1. -/
def ValidInit (t : Vt100) : Prop :=
  t.cursor = 0 ∧ t.cursor_saved = 0 ∧ 0 < t.width ∧ 0 < t.height ∧
  t.size = t.width * t.height ∧ t.size ≤ 8192 ∧ t.state = .Normal

instance (t : Vt100) : Decidable (ValidInit t) := by
  unfold ValidInit; infer_instance

/-- The inductive screen invariant: positive dimensions, consistent size,
and both cursors strictly inside the screen. -/
def ScreenInv (t : Vt100) : Prop :=
  0 < t.width ∧ 0 < t.height ∧ t.size = t.width * t.height ∧
  t.cursor < t.size ∧ t.cursor_saved < t.size

/-- `fifo_t` (`vt100.c`): a bounded byte ring. -/
structure fifo_t where
  head : Nat
  tail : Nat
  size : Nat
  buffer : List Nat
deriving DecidableEq

/-- `fifo_new` (`vt100.c`): `calloc` zeroes the backing buffer. -/
def fifo_new (size : Nat) : fifo_t :=
  { head := 0, tail := 0, size := size, buffer := List.replicate size 0 }

/-- `fifo_is_full` (`vt100.c`): note the `size_t` wraparound in
`fifo->tail - 1`. -/
def fifo_is_full (f : fifo_t) : Bool :=
  (f.head == f.size - 1 && f.tail == 0) || f.head == size_t_sub_one f.tail

/-- `fifo_is_empty` (`vt100.c`). -/
def fifo_is_empty (f : fifo_t) : Bool := f.head == f.tail

/-- `fifo_count` (`vt100.c`). -/
def fifo_count (f : fifo_t) : Nat :=
  if fifo_is_empty f then 0
  else if fifo_is_full f then f.size
  else if f.head < f.tail then f.head + (f.size - f.tail)
  else f.head - f.tail

/-- `fifo_push` (`vt100.c`): returns the number of elements written
(0 on a full queue, otherwise 1). -/
def fifo_push (f : fifo_t) (data : Nat) : fifo_t × Nat :=
  if fifo_is_full f then (f, 0)
  else
    let f1 := { f with buffer := f.buffer.set f.head data }
    let h := f1.head + 1
    ({ f1 with head := if h = f1.size then 0 else h }, 1)

/-- `fifo_pop` (`vt100.c`): returns the number of elements read and, when
one was read, the byte that `*data` receives. -/
def fifo_pop (f : fifo_t) : fifo_t × Nat × Option Nat :=
  if fifo_is_empty f then (f, 0, none)
  else
    let d := f.buffer.getD f.tail 0
    let tl := f.tail + 1
    ({ f with tail := if tl = f.size then 0 else tl }, 1, some d)

/-- `k` consecutive pushes of the same byte. -/
def fifo_push_rep (f : fifo_t) (d : Nat) : Nat → fifo_t
  | 0 => f
  | k + 1 => (fifo_push (fifo_push_rep f d k) d).1


/-! ## Helper lemmas: cursor geometry -/

theorem mul_add_lt {w h a b : Nat} (ha : a < h) (hb : b < w) :
    a * w + b < w * h := by
  calc a * w + b < a * w + w := Nat.add_lt_add_left hb _
    _ = (a + 1) * w := (Nat.succ_mul a w).symm
    _ ≤ h * w := Nat.mul_le_mul_right w ha
    _ = w * h := Nat.mul_comm h w

@[simp] theorem terminal_at_xy_width (t : Vt100) (x y : Nat) (b : Bool) :
    (terminal_at_xy t x y b).width = t.width := by cases b <;> rfl

@[simp] theorem terminal_at_xy_height (t : Vt100) (x y : Nat) (b : Bool) :
    (terminal_at_xy t x y b).height = t.height := by cases b <;> rfl

@[simp] theorem terminal_at_xy_size (t : Vt100) (x y : Nat) (b : Bool) :
    (terminal_at_xy t x y b).size = t.size := by cases b <;> rfl

@[simp] theorem terminal_at_xy_cursor_saved (t : Vt100) (x y : Nat) (b : Bool) :
    (terminal_at_xy t x y b).cursor_saved = t.cursor_saved := by cases b <;> rfl

@[simp] theorem terminal_at_xy_m (t : Vt100) (x y : Nat) (b : Bool) :
    (terminal_at_xy t x y b).m = t.m := by cases b <;> rfl

@[simp] theorem terminal_at_xy_attributes (t : Vt100) (x y : Nat) (b : Bool) :
    (terminal_at_xy t x y b).attributes = t.attributes := by cases b <;> rfl

@[simp] theorem terminal_at_xy_attr (t : Vt100) (x y : Nat) (b : Bool) :
    (terminal_at_xy t x y b).attr = t.attr := by cases b <;> rfl

@[simp] theorem terminal_at_xy_cursor_on (t : Vt100) (x y : Nat) (b : Bool) :
    (terminal_at_xy t x y b).cursor_on = t.cursor_on := by cases b <;> rfl

@[simp] theorem terminal_at_xy_blinks (t : Vt100) (x y : Nat) (b : Bool) :
    (terminal_at_xy t x y b).blinks = t.blinks := by cases b <;> rfl

@[simp] theorem terminal_at_xy_state (t : Vt100) (x y : Nat) (b : Bool) :
    (terminal_at_xy t x y b).state = t.state := by cases b <;> rfl

@[simp] theorem terminal_at_xy_n1 (t : Vt100) (x y : Nat) (b : Bool) :
    (terminal_at_xy t x y b).n1 = t.n1 := by cases b <;> rfl

theorem terminal_at_xy_cursor_lt (t : Vt100) (x y : Nat) (b : Bool)
    (hw : 0 < t.width) (hh : 0 < t.height) :
    (terminal_at_xy t x y b).cursor < t.width * t.height := by
  cases b
  · exact mul_add_lt (Nat.mod_lt _ hh) (Nat.mod_lt _ hw)
  · refine mul_add_lt ?_ ?_
    · have := Nat.min_le_right y (t.height - 1); omega
    · have := Nat.min_le_right x (t.width - 1); omega

/-! ## Shape lemmas: an exhaustive enumeration of the results each arm of
`terminal_escape_sequences` can produce.  Where a claim needs to know the
triggering conditions (the DECTCEM `'l'`/`'h'` arms), they are recorded in
the disjunct. -/

theorem seq_csi_shape (t : Vt100) (c : Nat) :
    terminal_seq_csi t c = ({ t with state := .Command }, false) ∨
    terminal_seq_csi t c = ({ t with state := .Normal }, true) := by
  unfold terminal_seq_csi
  by_cases h : c = 91
  · rw [if_pos h]; exact Or.inl rfl
  · rw [if_neg h]; exact Or.inr rfl

theorem seq_command_shape (t : Vt100) (c : Nat) :
    terminal_seq_command t c = ({ t with cursor_saved := t.cursor, state := .Normal }, false) ∨
    terminal_seq_command t c = ({ t with cursor := t.cursor_saved, state := .Normal }, false) ∨
    (c = 63 ∧ terminal_seq_command t c = ({ t with n1 := 1, n2 := 1, command_index := 0, state := .Dectcem }, false)) ∨
    terminal_seq_command t c = ({ t with n1 := 1, n2 := 1, command_index := 0, state := .Number2 }, false) ∨
    (∃ d, terminal_seq_command t c = ({ t with n1 := d, n2 := 1, command_index := 1, state := .Number1 }, false)) ∨
    terminal_seq_command t c = ({ t with state := .Normal }, true) := by
  unfold terminal_seq_command terminal_default_command_sequence
  by_cases h1 : c = 115
  · rw [if_pos h1]; exact Or.inl rfl
  rw [if_neg h1]
  by_cases h2 : c = 110
  · rw [if_pos h2]; exact Or.inr (Or.inl rfl)
  rw [if_neg h2]
  by_cases h3 : c = 63
  · rw [if_pos h3]; exact Or.inr (Or.inr (Or.inl ⟨h3, rfl⟩))
  rw [if_neg h3]
  by_cases h4 : c = 59
  · rw [if_pos h4]; exact Or.inr (Or.inr (Or.inr (Or.inl rfl)))
  rw [if_neg h4]
  by_cases h5 : isdigit c = true
  · rw [if_pos h5]; exact Or.inr (Or.inr (Or.inr (Or.inr (Or.inl ⟨c - 48, rfl⟩))))
  · rw [if_neg h5]; exact Or.inr (Or.inr (Or.inr (Or.inr (Or.inr rfl))))

theorem seq_number_1_shape (t : Vt100) (c : Nat) :
    terminal_seq_number_1 t c = ({ t with state := .Normal }, true) ∨
    (∃ v, terminal_seq_number_1 t c = ({ t with n1 := v, command_index := t.command_index + 1 }, false)) ∨
    (∃ x y b, terminal_seq_number_1 t c = ({ terminal_at_xy t x y b with state := .Normal }, false)) ∨
    (∃ a, terminal_seq_number_1 t c = ({ t with attr := a, attributes := t.attributes.set t.cursor a, state := .Normal }, false)) ∨
    terminal_seq_number_1 t c = ({ t with state := .Normal }, false) ∨
    (∃ n, terminal_seq_number_1 t c = ({ t with m := memset_block t.m n 32, attributes := memset_block t.attributes n vt100_default_attribute, state := .Normal }, false)) ∨
    (∃ n, terminal_seq_number_1 t c = ({ t with cursor := 0, m := memset_block t.m n 32, attributes := memset_block t.attributes n vt100_default_attribute, state := .Normal }, false)) ∨
    terminal_seq_number_1 t c = ({ t with command_index := 0, state := .Number2 }, false) := by
  unfold terminal_seq_number_1 terminal_at_xy_relative terminal_clear_block
  by_cases h1 : isdigit c = true
  · rw [if_pos h1]
    by_cases h2 : t.command_index > 3
    · rw [if_pos h2]; exact Or.inl rfl
    · rw [if_neg h2]; exact Or.inr (Or.inl ⟨_, rfl⟩)
  rw [if_neg h1]
  by_cases h3 : c = 65
  · rw [if_pos h3]; exact Or.inr (Or.inr (Or.inl ⟨_, _, _, rfl⟩))
  rw [if_neg h3]
  by_cases h4 : c = 66
  · rw [if_pos h4]; exact Or.inr (Or.inr (Or.inl ⟨_, _, _, rfl⟩))
  rw [if_neg h4]
  by_cases h5 : c = 67
  · rw [if_pos h5]; exact Or.inr (Or.inr (Or.inl ⟨_, _, _, rfl⟩))
  rw [if_neg h5]
  by_cases h6 : c = 68
  · rw [if_pos h6]; exact Or.inr (Or.inr (Or.inl ⟨_, _, _, rfl⟩))
  rw [if_neg h6]
  by_cases h7 : c = 69
  · rw [if_pos h7]; exact Or.inr (Or.inr (Or.inl ⟨_, _, _, rfl⟩))
  rw [if_neg h7]
  by_cases h8 : c = 70
  · rw [if_pos h8]; exact Or.inr (Or.inr (Or.inl ⟨_, _, _, rfl⟩))
  rw [if_neg h8]
  by_cases h9 : c = 71
  · rw [if_pos h9]; exact Or.inr (Or.inr (Or.inl ⟨_, _, _, rfl⟩))
  rw [if_neg h9]
  by_cases h10 : c = 109
  · rw [if_pos h10]; exact Or.inr (Or.inr (Or.inr (Or.inl ⟨_, rfl⟩)))
  rw [if_neg h10]
  by_cases h11 : c = 105
  · rw [if_pos h11]
    by_cases h12 : t.n1 = 5 ∨ t.n1 = 4
    · rw [if_pos h12]; exact Or.inr (Or.inr (Or.inr (Or.inr (Or.inl rfl))))
    · rw [if_neg h12]; exact Or.inl rfl
  rw [if_neg h11]
  by_cases h13 : c = 110
  · rw [if_pos h13]
    by_cases h14 : t.n1 = 6
    · rw [if_pos h14]; exact Or.inr (Or.inr (Or.inr (Or.inr (Or.inl rfl))))
    · rw [if_neg h14]; exact Or.inl rfl
  rw [if_neg h13]
  by_cases h15 : c = 74
  · rw [if_pos h15]
    by_cases h16 : t.n1 = 3 ∨ t.n1 = 2
    · rw [if_pos h16]
      by_cases h17 : ({ t with cursor := 0 } : Vt100).command_index ≠ 0
      · rw [if_pos h17]
        exact Or.inr (Or.inr (Or.inr (Or.inr (Or.inr (Or.inr (Or.inl ⟨_, rfl⟩))))))
      · rw [if_neg h17]
        exact Or.inr (Or.inr (Or.inr (Or.inr (Or.inr (Or.inr (Or.inl ⟨_, rfl⟩))))))
    rw [if_neg h16]
    by_cases h18 : t.n1 = 1
    · rw [if_pos h18]
      by_cases h19 : t.command_index ≠ 0
      · rw [if_pos h19]
        exact Or.inr (Or.inr (Or.inr (Or.inr (Or.inr (Or.inl ⟨_, rfl⟩)))))
      · rw [if_neg h19]
        exact Or.inr (Or.inr (Or.inr (Or.inr (Or.inr (Or.inl ⟨_, rfl⟩)))))
    rw [if_neg h18]
    by_cases h20 : t.n1 = 0
    · rw [if_pos h20]
      exact Or.inr (Or.inr (Or.inr (Or.inr (Or.inr (Or.inl ⟨_, rfl⟩)))))
    · rw [if_neg h20]; exact Or.inl rfl
  rw [if_neg h15]
  by_cases h21 : c = 59
  · rw [if_pos h21]
    exact Or.inr (Or.inr (Or.inr (Or.inr (Or.inr (Or.inr (Or.inr rfl))))))
  · rw [if_neg h21]; exact Or.inl rfl

theorem seq_number_2_shape (t : Vt100) (c : Nat) :
    terminal_seq_number_2 t c = ({ t with state := .Normal }, true) ∨
    (∃ v, terminal_seq_number_2 t c = ({ t with n2 := v, command_index := t.command_index + 1 }, false)) ∨
    (∃ a, terminal_seq_number_2 t c = ({ t with attr := a, attributes := t.attributes.set t.cursor a, state := .Normal }, false)) ∨
    terminal_seq_number_2 t c = ({ terminal_at_xy t t.n2 t.n1 true with state := .Normal }, false) := by
  unfold terminal_seq_number_2
  by_cases h1 : isdigit c = true
  · rw [if_pos h1]
    by_cases h2 : t.command_index > 3
    · rw [if_pos h2]; exact Or.inl rfl
    · rw [if_neg h2]; exact Or.inr (Or.inl ⟨_, rfl⟩)
  rw [if_neg h1]
  by_cases h3 : c = 109
  · rw [if_pos h3]; exact Or.inr (Or.inr (Or.inl ⟨_, rfl⟩))
  rw [if_neg h3]
  by_cases h4 : c = 72 ∨ c = 102
  · rw [if_pos h4]; exact Or.inr (Or.inr (Or.inr rfl))
  · rw [if_neg h4]; exact Or.inl rfl

theorem seq_dectcem_shape (t : Vt100) (c : Nat) :
    terminal_seq_dectcem t c = ({ t with state := .Normal }, true) ∨
    (isdigit c = true ∧ ∃ v, terminal_seq_dectcem t c = ({ t with n1 := v, command_index := t.command_index + 1 }, false)) ∨
    (t.n1 = 25 ∧ c = 108 ∧ terminal_seq_dectcem t c = ({ t with cursor_on := false, state := .Normal }, false)) ∨
    (t.n1 = 25 ∧ c = 104 ∧ terminal_seq_dectcem t c = ({ t with cursor_on := true, state := .Normal }, false)) := by
  unfold terminal_seq_dectcem
  by_cases h1 : isdigit c = true
  · rw [if_pos h1]
    by_cases h2 : t.command_index > 1
    · rw [if_pos h2]; exact Or.inl rfl
    · rw [if_neg h2]; exact Or.inr (Or.inl ⟨h1, _, rfl⟩)
  rw [if_neg h1]
  by_cases h3 : t.n1 ≠ 25
  · rw [if_pos h3]; exact Or.inl rfl
  rw [if_neg h3]
  push_neg at h3
  by_cases h4 : c = 108
  · rw [if_pos h4]; exact Or.inr (Or.inr (Or.inl ⟨h3, h4, rfl⟩))
  rw [if_neg h4]
  by_cases h5 : c = 104
  · rw [if_pos h5]; exact Or.inr (Or.inr (Or.inr ⟨h3, h5, rfl⟩))
  · rw [if_neg h5]; exact Or.inl rfl

/-! ## Dispatch lemmas for `terminal_escape_sequences` -/

theorem esc_eq_normal (t : Vt100) (c : Nat) (hst : t.state = .Normal) :
    terminal_escape_sequences t c = ({ t with state := .Normal }, true) := by
  unfold terminal_escape_sequences; rw [hst]

theorem esc_eq_csi (t : Vt100) (c : Nat) (hst : t.state = .Csi) :
    terminal_escape_sequences t c = terminal_seq_csi t c := by
  unfold terminal_escape_sequences; rw [hst]

theorem esc_eq_command (t : Vt100) (c : Nat) (hst : t.state = .Command) :
    terminal_escape_sequences t c = terminal_seq_command t c := by
  unfold terminal_escape_sequences; rw [hst]

theorem esc_eq_number_1 (t : Vt100) (c : Nat) (hst : t.state = .Number1) :
    terminal_escape_sequences t c = terminal_seq_number_1 t c := by
  unfold terminal_escape_sequences; rw [hst]

theorem esc_eq_number_2 (t : Vt100) (c : Nat) (hst : t.state = .Number2) :
    terminal_escape_sequences t c = terminal_seq_number_2 t c := by
  unfold terminal_escape_sequences; rw [hst]

theorem esc_eq_dectcem (t : Vt100) (c : Nat) (hst : t.state = .Dectcem) :
    terminal_escape_sequences t c = terminal_seq_dectcem t c := by
  unfold terminal_escape_sequences; rw [hst]

theorem esc_eq_state_end (t : Vt100) (c : Nat) (hst : t.state = .StateEnd) :
    terminal_escape_sequences t c = ({ t with state := .Normal }, false) := by
  unfold terminal_escape_sequences; rw [hst]

/-! ## Derived lemmas on `terminal_escape_sequences` -/

theorem esc_fail_eq (t : Vt100) (c : Nat)
    (h : (terminal_escape_sequences t c).2 = true) :
    (terminal_escape_sequences t c).1 = { t with state := .Normal } := by
  cases hst : t.state
  case Normal => rw [esc_eq_normal t c hst]
  case Csi =>
    rw [esc_eq_csi t c hst] at h ⊢
    rcases seq_csi_shape t c with h1 | h1 <;> rw [h1] at h ⊢ <;>
      first | rfl | simp at h
  case Command =>
    rw [esc_eq_command t c hst] at h ⊢
    rcases seq_command_shape t c with h1 | h1 | ⟨hq, h1⟩ | h1 | ⟨d, h1⟩ | h1 <;>
      rw [h1] at h ⊢ <;> first | rfl | simp at h
  case Number1 =>
    rw [esc_eq_number_1 t c hst] at h ⊢
    rcases seq_number_1_shape t c with
      h1 | ⟨v, h1⟩ | ⟨x, y, b, h1⟩ | ⟨a, h1⟩ | h1 | ⟨n, h1⟩ | ⟨n, h1⟩ | h1 <;>
      rw [h1] at h ⊢ <;> first | rfl | simp at h
  case Number2 =>
    rw [esc_eq_number_2 t c hst] at h ⊢
    rcases seq_number_2_shape t c with h1 | ⟨v, h1⟩ | ⟨a, h1⟩ | h1 <;>
      rw [h1] at h ⊢ <;> first | rfl | simp at h
  case Dectcem =>
    rw [esc_eq_dectcem t c hst] at h ⊢
    rcases seq_dectcem_shape t c with
      h1 | ⟨hdig, v, h1⟩ | ⟨h25, hc8, h1⟩ | ⟨h25, hc8, h1⟩ <;>
      rw [h1] at h ⊢ <;> first | rfl | simp at h
  case StateEnd =>
    rw [esc_eq_state_end t c hst] at h; simp at h

theorem esc_mid_screen (t : Vt100) (c : Nat)
    (h : (terminal_escape_sequences t c).1.state ≠ .Normal) :
    screen_eq (terminal_escape_sequences t c).1 t := by
  cases hst : t.state
  case Normal => rw [esc_eq_normal t c hst] at h; exact absurd rfl h
  case Csi =>
    rw [esc_eq_csi t c hst] at h ⊢
    rcases seq_csi_shape t c with h1 | h1 <;> rw [h1] at h ⊢ <;>
      first | exact absurd rfl h | exact ⟨rfl, rfl, rfl, rfl, rfl, rfl⟩
  case Command =>
    rw [esc_eq_command t c hst] at h ⊢
    rcases seq_command_shape t c with h1 | h1 | ⟨hq, h1⟩ | h1 | ⟨d, h1⟩ | h1 <;>
      rw [h1] at h ⊢ <;>
      first | exact absurd rfl h | exact ⟨rfl, rfl, rfl, rfl, rfl, rfl⟩
  case Number1 =>
    rw [esc_eq_number_1 t c hst] at h ⊢
    rcases seq_number_1_shape t c with
      h1 | ⟨v, h1⟩ | ⟨x, y, b, h1⟩ | ⟨a, h1⟩ | h1 | ⟨n, h1⟩ | ⟨n, h1⟩ | h1 <;>
      rw [h1] at h ⊢ <;>
      first | exact absurd rfl h | exact ⟨rfl, rfl, rfl, rfl, rfl, rfl⟩
  case Number2 =>
    rw [esc_eq_number_2 t c hst] at h ⊢
    rcases seq_number_2_shape t c with h1 | ⟨v, h1⟩ | ⟨a, h1⟩ | h1 <;>
      rw [h1] at h ⊢ <;>
      first | exact absurd rfl h | exact ⟨rfl, rfl, rfl, rfl, rfl, rfl⟩
  case Dectcem =>
    rw [esc_eq_dectcem t c hst] at h ⊢
    rcases seq_dectcem_shape t c with
      h1 | ⟨hdig, v, h1⟩ | ⟨h25, hc8, h1⟩ | ⟨h25, hc8, h1⟩ <;>
      rw [h1] at h ⊢ <;>
      first | exact absurd rfl h | exact ⟨rfl, rfl, rfl, rfl, rfl, rfl⟩
  case StateEnd =>
    rw [esc_eq_state_end t c hst] at h; exact absurd rfl h

theorem screen_inv_at_xy_normal (t : Vt100) (x y : Nat) (b : Bool)
    (hw : 0 < t.width) (hh : 0 < t.height) (hsz : t.size = t.width * t.height)
    (hcs : t.cursor_saved < t.size) :
    ScreenInv { terminal_at_xy t x y b with state := TerminalState.Normal } := by
  refine ⟨by simpa using hw, by simpa using hh, by simp [hsz], ?_, by simpa using hcs⟩
  show (terminal_at_xy t x y b).cursor < (terminal_at_xy t x y b).size
  rw [terminal_at_xy_size, hsz]
  exact terminal_at_xy_cursor_lt t x y b hw hh

theorem esc_screen_inv (t : Vt100) (c : Nat) (h : ScreenInv t) :
    ScreenInv (terminal_escape_sequences t c).1 := by
  obtain ⟨hw, hh, hsz, hc, hcs⟩ := h
  have hpos : 0 < t.size := by rw [hsz]; exact Nat.mul_pos hw hh
  cases hst : t.state
  case Normal => rw [esc_eq_normal t c hst]; exact ⟨hw, hh, hsz, hc, hcs⟩
  case Csi =>
    rw [esc_eq_csi t c hst]
    rcases seq_csi_shape t c with h1 | h1 <;> rw [h1] <;>
      exact ⟨hw, hh, hsz, hc, hcs⟩
  case Command =>
    rw [esc_eq_command t c hst]
    rcases seq_command_shape t c with h1 | h1 | ⟨hq, h1⟩ | h1 | ⟨d, h1⟩ | h1 <;> rw [h1] <;>
      first
        | exact ⟨hw, hh, hsz, hc, hcs⟩
        | exact ⟨hw, hh, hsz, hc, hc⟩
        | exact ⟨hw, hh, hsz, hcs, hcs⟩
  case Number1 =>
    rw [esc_eq_number_1 t c hst]
    rcases seq_number_1_shape t c with
      h1 | ⟨v, h1⟩ | ⟨x, y, b, h1⟩ | ⟨a, h1⟩ | h1 | ⟨n, h1⟩ | ⟨n, h1⟩ | h1 <;> rw [h1] <;>
      first
        | exact ⟨hw, hh, hsz, hc, hcs⟩
        | exact ⟨hw, hh, hsz, hpos, hcs⟩
        | exact screen_inv_at_xy_normal t _ _ _ hw hh hsz hcs
  case Number2 =>
    rw [esc_eq_number_2 t c hst]
    rcases seq_number_2_shape t c with h1 | ⟨v, h1⟩ | ⟨a, h1⟩ | h1 <;> rw [h1] <;>
      first
        | exact ⟨hw, hh, hsz, hc, hcs⟩
        | exact screen_inv_at_xy_normal t _ _ _ hw hh hsz hcs
  case Dectcem =>
    rw [esc_eq_dectcem t c hst]
    rcases seq_dectcem_shape t c with
      h1 | ⟨hdig, v, h1⟩ | ⟨h25, hc8, h1⟩ | ⟨h25, hc8, h1⟩ <;> rw [h1] <;>
      exact ⟨hw, hh, hsz, hc, hcs⟩
  case StateEnd =>
    rw [esc_eq_state_end t c hst]; exact ⟨hw, hh, hsz, hc, hcs⟩

theorem esc_blinks (t : Vt100) (c : Nat) :
    (terminal_escape_sequences t c).1.blinks = t.blinks := by
  cases hst : t.state
  case Normal => rw [esc_eq_normal t c hst]
  case Csi =>
    rw [esc_eq_csi t c hst]
    rcases seq_csi_shape t c with h1 | h1 <;> rw [h1] <;> rfl
  case Command =>
    rw [esc_eq_command t c hst]
    rcases seq_command_shape t c with h1 | h1 | ⟨hq, h1⟩ | h1 | ⟨d, h1⟩ | h1 <;> rw [h1] <;> rfl
  case Number1 =>
    rw [esc_eq_number_1 t c hst]
    rcases seq_number_1_shape t c with
      h1 | ⟨v, h1⟩ | ⟨x, y, b, h1⟩ | ⟨a, h1⟩ | h1 | ⟨n, h1⟩ | ⟨n, h1⟩ | h1 <;> rw [h1] <;>
      first | rfl | exact terminal_at_xy_blinks t _ _ _
  case Number2 =>
    rw [esc_eq_number_2 t c hst]
    rcases seq_number_2_shape t c with h1 | ⟨v, h1⟩ | ⟨a, h1⟩ | h1 <;> rw [h1] <;>
      first | rfl | exact terminal_at_xy_blinks t _ _ _
  case Dectcem =>
    rw [esc_eq_dectcem t c hst]
    rcases seq_dectcem_shape t c with
      h1 | ⟨hdig, v, h1⟩ | ⟨h25, hc8, h1⟩ | ⟨h25, hc8, h1⟩ <;> rw [h1] <;> rfl
  case StateEnd => rw [esc_eq_state_end t c hst]

theorem esc_cursor_on_cases (t : Vt100) (c : Nat) :
    (terminal_escape_sequences t c).1.cursor_on = t.cursor_on ∨
    (t.state = .Dectcem ∧ t.n1 = 25 ∧
      ((c = 104 ∧ (terminal_escape_sequences t c).1.cursor_on = true) ∨
       (c = 108 ∧ (terminal_escape_sequences t c).1.cursor_on = false))) := by
  cases hst : t.state
  case Normal => rw [esc_eq_normal t c hst]; exact Or.inl rfl
  case Csi =>
    rw [esc_eq_csi t c hst]
    rcases seq_csi_shape t c with h1 | h1 <;> rw [h1] <;> exact Or.inl rfl
  case Command =>
    rw [esc_eq_command t c hst]
    rcases seq_command_shape t c with h1 | h1 | ⟨hq, h1⟩ | h1 | ⟨d, h1⟩ | h1 <;> rw [h1] <;>
      exact Or.inl rfl
  case Number1 =>
    rw [esc_eq_number_1 t c hst]
    rcases seq_number_1_shape t c with
      h1 | ⟨v, h1⟩ | ⟨x, y, b, h1⟩ | ⟨a, h1⟩ | h1 | ⟨n, h1⟩ | ⟨n, h1⟩ | h1 <;> rw [h1] <;>
      first | exact Or.inl rfl | exact Or.inl (terminal_at_xy_cursor_on t _ _ _)
  case Number2 =>
    rw [esc_eq_number_2 t c hst]
    rcases seq_number_2_shape t c with h1 | ⟨v, h1⟩ | ⟨a, h1⟩ | h1 <;> rw [h1] <;>
      first | exact Or.inl rfl | exact Or.inl (terminal_at_xy_cursor_on t _ _ _)
  case Dectcem =>
    rw [esc_eq_dectcem t c hst]
    rcases seq_dectcem_shape t c with
      h1 | ⟨hdig, v, h1⟩ | ⟨h25, hc8, h1⟩ | ⟨h25, hc8, h1⟩
    · rw [h1]; exact Or.inl rfl
    · rw [h1]; exact Or.inl rfl
    · rw [h1]; exact Or.inr ⟨rfl, h25, Or.inr ⟨hc8, rfl⟩⟩
    · rw [h1]; exact Or.inr ⟨rfl, h25, Or.inl ⟨hc8, rfl⟩⟩
  case StateEnd => rw [esc_eq_state_end t c hst]; exact Or.inl rfl

/-! ## Lemmas on `vt100_update` -/

theorem vt100_normal_step_frame (t : Vt100) (c : Nat) :
    (vt100_normal_step t c).width = t.width ∧
    (vt100_normal_step t c).height = t.height ∧
    (vt100_normal_step t c).size = t.size ∧
    (vt100_normal_step t c).cursor_saved = t.cursor_saved ∧
    (vt100_normal_step t c).blinks = t.blinks ∧
    (vt100_normal_step t c).cursor_on = t.cursor_on := by
  unfold vt100_normal_step terminal_at_xy_relative
  split_ifs <;> simp

theorem vt100_overflow_clear_frame (t : Vt100) :
    (vt100_overflow_clear t).width = t.width ∧
    (vt100_overflow_clear t).height = t.height ∧
    (vt100_overflow_clear t).size = t.size ∧
    (vt100_overflow_clear t).cursor_saved = t.cursor_saved ∧
    (vt100_overflow_clear t).blinks = t.blinks ∧
    (vt100_overflow_clear t).cursor_on = t.cursor_on ∧
    (vt100_overflow_clear t).cursor = t.cursor ∧
    (vt100_overflow_clear t).state = t.state := by
  unfold vt100_overflow_clear
  split_ifs <;> simp

theorem vt100_update_escape (t : Vt100) (c : Nat) (hs : t.state ≠ .Normal) :
    vt100_update t c =
      (if (terminal_escape_sequences t c).2 then
        { (terminal_escape_sequences t c).1 with state := .Normal }
      else (terminal_escape_sequences t c).1) := by
  unfold vt100_update
  rw [if_pos hs]

theorem vt100_update_fail_eq (t : Vt100) (c : Nat) (hs : t.state ≠ .Normal)
    (hr : (terminal_escape_sequences t c).2 = true) :
    vt100_update t c = { t with state := .Normal } := by
  rw [vt100_update_escape t c hs, if_pos hr, esc_fail_eq t c hr]

theorem vt100_update_mid_screen (t : Vt100) (c : Nat) (hs : t.state ≠ .Normal)
    (h : (vt100_update t c).state ≠ .Normal) :
    screen_eq (vt100_update t c) t := by
  by_cases hr : (terminal_escape_sequences t c).2 = true
  · rw [vt100_update_fail_eq t c hs hr] at h
    exact absurd rfl h
  · rw [vt100_update_escape t c hs, if_neg hr] at h ⊢
    exact esc_mid_screen t c h

theorem update_screen_inv (t : Vt100) (c : Nat) (h : ScreenInv t) :
    ScreenInv (vt100_update t c) := by
  by_cases hs : t.state ≠ .Normal
  · rw [vt100_update_escape t c hs]
    have he := esc_screen_inv t c h
    split
    · exact he
    · exact he
  · unfold vt100_update
    rw [if_neg hs]
    obtain ⟨hw, hh, hsz, hc, hcs⟩ := h
    obtain ⟨f1, f2, f3, f4, f5, f6⟩ := vt100_normal_step_frame t c
    obtain ⟨g1, g2, g3, g4, g5, g6, g7, g8⟩ :=
      vt100_overflow_clear_frame (vt100_normal_step t c)
    have hpos : 0 < t.size := by rw [hsz]; exact Nat.mul_pos hw hh
    refine ⟨?_, ?_, ?_, ?_, ?_⟩ <;>
      simp only [g1, g2, g3, g4, f1, f2, f3, f4]
    · exact hw
    · exact hh
    · exact hsz
    · exact Nat.mod_lt _ hpos
    · exact hcs

theorem update_blinks (t : Vt100) (c : Nat) :
    (vt100_update t c).blinks = t.blinks := by
  by_cases hs : t.state ≠ .Normal
  · rw [vt100_update_escape t c hs]
    split
    · exact esc_blinks t c
    · exact esc_blinks t c
  · unfold vt100_update
    rw [if_neg hs]
    obtain ⟨f1, f2, f3, f4, f5, f6⟩ := vt100_normal_step_frame t c
    obtain ⟨g1, g2, g3, g4, g5, g6, g7, g8⟩ :=
      vt100_overflow_clear_frame (vt100_normal_step t c)
    show (vt100_overflow_clear (vt100_normal_step t c)).blinks = t.blinks
    rw [g5, f5]

theorem update_cursor_on_cases (t : Vt100) (c : Nat) :
    (vt100_update t c).cursor_on = t.cursor_on ∨
    (t.state = .Dectcem ∧ t.n1 = 25 ∧
      ((c = 104 ∧ (vt100_update t c).cursor_on = true) ∨
       (c = 108 ∧ (vt100_update t c).cursor_on = false))) := by
  by_cases hs : t.state ≠ .Normal
  · by_cases hr : (terminal_escape_sequences t c).2 = true
    · rw [vt100_update_fail_eq t c hs hr]
      exact Or.inl rfl
    · rw [vt100_update_escape t c hs, if_neg hr]
      exact esc_cursor_on_cases t c
  · unfold vt100_update
    rw [if_neg hs]
    obtain ⟨f1, f2, f3, f4, f5, f6⟩ := vt100_normal_step_frame t c
    obtain ⟨g1, g2, g3, g4, g5, g6, g7, g8⟩ :=
      vt100_overflow_clear_frame (vt100_normal_step t c)
    refine Or.inl ?_
    show (vt100_overflow_clear (vt100_normal_step t c)).cursor_on = t.cursor_on
    rw [g6, f6]

theorem screen_eq_refl (t : Vt100) : screen_eq t t :=
  ⟨rfl, rfl, rfl, rfl, rfl, rfl⟩

theorem screen_eq_trans {a b c : Vt100} (h1 : screen_eq a b) (h2 : screen_eq b c) :
    screen_eq a c :=
  ⟨h1.1.trans h2.1, h1.2.1.trans h2.2.1, h1.2.2.1.trans h2.2.2.1,
   h1.2.2.2.1.trans h2.2.2.2.1, h1.2.2.2.2.1.trans h2.2.2.2.2.1,
   h1.2.2.2.2.2.trans h2.2.2.2.2.2⟩

@[simp] theorem feedAll_nil (t : Vt100) : feedAll t [] = t := rfl

@[simp] theorem feedAll_cons (t : Vt100) (b : Nat) (bs : List Nat) :
    feedAll t (b :: bs) = feedAll (vt100_update t b) bs := rfl

/-- While the parser stays out of `Normal`, the screen content is frozen. -/
theorem feed_pending_screen_eq : ∀ (bs : List Nat) (t : Vt100),
    (∀ i, i ≤ bs.length → (feedAll t (List.take i bs)).state ≠ .Normal) →
    screen_eq (feedAll t bs) t ∧ (feedAll t bs).state ≠ .Normal := by
  intro bs
  induction bs with
  | nil =>
    intro t h
    exact ⟨screen_eq_refl t, by simpa using h 0 (Nat.le_refl 0)⟩
  | cons b bs ih =>
    intro t h
    have h0 : t.state ≠ .Normal := by simpa using h 0 (Nat.zero_le _)
    have h1 : (vt100_update t b).state ≠ .Normal := by
      simpa using h 1 (by simp)
    have hmid : screen_eq (vt100_update t b) t := vt100_update_mid_screen t b h0 h1
    have hrest := ih (vt100_update t b) (by
      intro i hi
      simpa [List.take_succ_cons] using h (i + 1) (by simpa using hi))
    exact ⟨screen_eq_trans hrest.1 hmid, hrest.2⟩

theorem esc_dectcem_entry (t : Vt100) (c : Nat)
    (h : (terminal_escape_sequences t c).1.state = .Dectcem) :
    (t.state = .Dectcem ∧ isdigit c = true) ∨ (t.state = .Command ∧ c = 63) := by
  cases hst : t.state
  case Normal => rw [esc_eq_normal t c hst] at h; simp at h
  case Csi =>
    rw [esc_eq_csi t c hst] at h
    rcases seq_csi_shape t c with h1 | h1 <;> rw [h1] at h <;> simp at h
  case Command =>
    rw [esc_eq_command t c hst] at h
    rcases seq_command_shape t c with h1 | h1 | ⟨hq, h1⟩ | h1 | ⟨d, h1⟩ | h1 <;>
      rw [h1] at h <;> first | (exact Or.inr ⟨rfl, hq⟩) | simp [hst] at h
  case Number1 =>
    rw [esc_eq_number_1 t c hst] at h
    rcases seq_number_1_shape t c with
      h1 | ⟨v, h1⟩ | ⟨x, y, b, h1⟩ | ⟨a, h1⟩ | h1 | ⟨n, h1⟩ | ⟨n, h1⟩ | h1 <;>
      rw [h1] at h <;> simp [hst] at h
  case Number2 =>
    rw [esc_eq_number_2 t c hst] at h
    rcases seq_number_2_shape t c with h1 | ⟨v, h1⟩ | ⟨a, h1⟩ | h1 <;>
      rw [h1] at h <;> simp [hst] at h
  case Dectcem =>
    rw [esc_eq_dectcem t c hst] at h
    rcases seq_dectcem_shape t c with
      h1 | ⟨hdig, v, h1⟩ | ⟨h25, hc8, h1⟩ | ⟨h25, hc8, h1⟩ <;> rw [h1] at h <;>
      first | (exact Or.inl ⟨rfl, hdig⟩) | simp at h
  case StateEnd => rw [esc_eq_state_end t c hst] at h; simp at h

theorem feedAll_append (t : Vt100) (l1 l2 : List Nat) :
    feedAll t (l1 ++ l2) = feedAll (feedAll t l1) l2 :=
  List.foldl_append _ _ _ _

/-- Feeding ESC in `Normal` mode with the cursor in range only moves the
parser to `Csi`. -/
theorem vt100_update_27 (t : Vt100) (hs : t.state = .Normal) (hc : t.cursor < t.size) :
    vt100_update t 27 = { t with state := .Csi } := by
  unfold vt100_update
  rw [if_neg (by simp [hs])]
  have hn : vt100_normal_step t 27 = { t with state := .Csi } := rfl
  rw [hn]
  have ho : vt100_overflow_clear { t with state := TerminalState.Csi } =
      { t with state := .Csi } := by
    unfold vt100_overflow_clear
    rw [if_neg]
    show ¬ t.cursor ≥ t.size
    omega
  rw [ho]
  show ({ t with state := TerminalState.Csi, cursor := t.cursor % t.size } : Vt100) =
    { t with state := .Csi }
  rw [Nat.mod_eq_of_lt hc]

/-! ## Claim theorems -/

/-- Claim C1: for every byte sequence fed through `vt100_update` starting
from a validly initialized screen (cursor 0, saved cursor 0,
`size = width * height` with positive dimensions and `size ≤ 8192`), after
every processed byte both `cursor` and `cursor_saved` lie in `[0, size)`.
(Every prefix of a byte stream is itself a byte list, so quantifying over
the list covers every intermediate state.) -/
theorem C1_cursor_bounds (t : Vt100) (hinit : ValidInit t) (bs : List Nat) :
    (feedAll t bs).cursor < (feedAll t bs).size ∧
    (feedAll t bs).cursor_saved < (feedAll t bs).size := by
  have hInv : ScreenInv t := by
    obtain ⟨h1, h2, h3, h4, h5, h6, h7⟩ := hinit
    have hpos : 0 < t.size := by rw [h5]; exact Nat.mul_pos h3 h4
    exact ⟨h3, h4, h5, by omega, by omega⟩
  have main : ∀ (l : List Nat) (u : Vt100), ScreenInv u → ScreenInv (feedAll u l) := by
    intro l
    induction l with
    | nil => intro u h; exact h
    | cons b l ih => intro u h; exact ih _ (update_screen_inv u b h)
  obtain ⟨_, _, _, hc, hcs⟩ := main bs t hInv
  exact ⟨hc, hcs⟩

/-- Witness for C1 at a concrete 2×2 screen and a concrete byte list. -/
theorem C1_cursor_bounds_witness :
    ValidInit (init_vt100 2 2) ∧
    ((feedAll (init_vt100 2 2) [72, 105, 10]).cursor <
       (feedAll (init_vt100 2 2) [72, 105, 10]).size ∧
     (feedAll (init_vt100 2 2) [72, 105, 10]).cursor_saved <
       (feedAll (init_vt100 2 2) [72, 105, 10]).size) :=
  ⟨by decide, C1_cursor_bounds (init_vt100 2 2) (by decide) [72, 105, 10]⟩

/-- Claim C2: an escape sequence that terminates in a fail (ESC, then bytes
that keep the parser out of `Normal`, then a byte on which
`terminal_escape_sequences` fails) leaves glyphs, attributes, cursor, saved
cursor, current attribute and cursor visibility exactly as they were before
the ESC, and the parser is back in `Normal`. -/
theorem C2_escape_fail_frame (t : Vt100) (bs : List Nat) (b : Nat)
    (h0 : t.state = .Normal) (hc : t.cursor < t.size)
    (hmid : ∀ i, i ≤ bs.length →
      (feedAll t (27 :: List.take i bs)).state ≠ .Normal)
    (hfail : (terminal_escape_sequences (feedAll t (27 :: bs)) b).2 = true) :
    screen_eq (feedAll t (27 :: bs ++ [b])) t ∧
    (feedAll t (27 :: bs ++ [b])).state = .Normal := by
  have hesc : vt100_update t 27 = { t with state := .Csi } := vt100_update_27 t h0 hc
  have hmid' : ∀ i, i ≤ bs.length →
      (feedAll (vt100_update t 27) (List.take i bs)).state ≠ .Normal := by
    intro i hi
    have := hmid i hi
    rwa [feedAll_cons] at this
  obtain ⟨hpend, hnn⟩ := feed_pending_screen_eq bs (vt100_update t 27) hmid'
  have hfail' : (terminal_escape_sequences (feedAll (vt100_update t 27) bs) b).2 = true := by
    rwa [feedAll_cons] at hfail
  have hupd : vt100_update (feedAll (vt100_update t 27) bs) b =
      { feedAll (vt100_update t 27) bs with state := .Normal } :=
    vt100_update_fail_eq _ b hnn hfail'
  have hfeed : feedAll t (27 :: bs ++ [b]) =
      vt100_update (feedAll (vt100_update t 27) bs) b := by
    rw [feedAll_append]
    rfl
  constructor
  · rw [hfeed, hupd]
    refine screen_eq_trans ⟨rfl, rfl, rfl, rfl, rfl, rfl⟩
      (screen_eq_trans hpend ?_)
    rw [hesc]
    exact ⟨rfl, rfl, rfl, rfl, rfl, rfl⟩
  · rw [hfeed, hupd]

/-- Witness for C2: a 2×2 screen, ESC followed directly by a byte that is
not `'['`. -/
theorem C2_escape_fail_frame_witness :
    screen_eq (feedAll (init_vt100 2 2) (27 :: [] ++ [88])) (init_vt100 2 2) ∧
    (feedAll (init_vt100 2 2) (27 :: [] ++ [88])).state = .Normal :=
  C2_escape_fail_frame (init_vt100 2 2) [] 88 (by decide) (by decide)
    (by intro i hi; simp only [List.take_nil]; decide)
    (by decide)

/-- Claim C8: from any `Normal`-mode screen with the cursor in range,
feeding `ESC [ s` and then `ESC [ n` returns the cursor to its value before
the `s` (save then restore is the identity on the cursor). -/
theorem C8_save_restore (t : Vt100) (hs : t.state = .Normal) (hc : t.cursor < t.size) :
    (feedAll t [27, 91, 115, 27, 91, 110]).cursor = t.cursor := by
  have s1 : feedAll t [27, 91, 115] =
      { t with cursor_saved := t.cursor, state := .Normal } := by
    simp only [feedAll_cons, feedAll_nil]
    rw [vt100_update_27 t hs hc]
    rfl
  have s2 : vt100_update { t with cursor_saved := t.cursor, state := TerminalState.Normal } 27 =
      { t with cursor_saved := t.cursor, state := .Csi } :=
    vt100_update_27 { t with cursor_saved := t.cursor, state := TerminalState.Normal }
      rfl hc
  rw [show ([27, 91, 115, 27, 91, 110] : List Nat) = [27, 91, 115] ++ [27, 91, 110] from rfl,
      feedAll_append, s1]
  simp only [feedAll_cons, feedAll_nil]
  rw [s2]
  rfl

/-- Witness for C8 at the program's initial 80×40 screen. -/
theorem C8_save_restore_witness :
    (feedAll init80x40 [27, 91, 115, 27, 91, 110]).cursor = init80x40.cursor :=
  C8_save_restore init80x40 (by decide) (by decide)

/-- Claim C10: `vt100_update` never changes `blinks`; it changes
`cursor_on` only on the `'h'`/`'l'` byte that terminates a DECTCEM sequence
with accumulated parameter 25 (`true` for `'h'`, `false` for `'l'`); the
DECTCEM state itself is entered only by `'?'` from the `ESC [` state and
survives only on digits; and from `Normal` mode the bytes
`ESC [ ? 2 5` do reach that state with `n1 = 25`, after which `'h'` turns
the cursor on and `'l'` turns it off. -/
theorem C10_cursor_flags :
    (∀ t c, (vt100_update t c).blinks = t.blinks) ∧
    (∀ t c, (vt100_update t c).cursor_on ≠ t.cursor_on →
      t.state = .Dectcem ∧ t.n1 = 25 ∧
        ((c = 104 ∧ (vt100_update t c).cursor_on = true) ∨
         (c = 108 ∧ (vt100_update t c).cursor_on = false))) ∧
    (∀ t c, (vt100_update t c).state = .Dectcem →
      (t.state = .Dectcem ∧ isdigit c = true) ∨ (t.state = .Command ∧ c = 63)) ∧
    (∀ t, t.state = .Normal → t.cursor < t.size →
      (feedAll t [27, 91, 63, 50, 53]).state = .Dectcem ∧
      (feedAll t [27, 91, 63, 50, 53]).n1 = 25 ∧
      (feedAll t [27, 91, 63, 50, 53, 104]).cursor_on = true ∧
      (feedAll t [27, 91, 63, 50, 53, 108]).cursor_on = false) := by
  refine ⟨update_blinks, ?_, ?_, ?_⟩
  · intro t c hne
    rcases update_cursor_on_cases t c with heq | hinfo
    · exact absurd heq hne
    · exact hinfo
  · intro t c h
    by_cases hs : t.state ≠ .Normal
    · by_cases hr : (terminal_escape_sequences t c).2 = true
      · rw [vt100_update_fail_eq t c hs hr] at h
        simp at h
      · rw [vt100_update_escape t c hs, if_neg hr] at h
        exact esc_dectcem_entry t c h
    · exfalso
      push_neg at hs
      unfold vt100_update at h
      rw [if_neg (by simp [hs])] at h
      obtain ⟨f1, f2, f3, f4, f5, f6⟩ := vt100_normal_step_frame t c
      obtain ⟨g1, g2, g3, g4, g5, g6, g7, g8⟩ :=
        vt100_overflow_clear_frame (vt100_normal_step t c)
      have hstate : (vt100_normal_step t c).state = .Normal ∨
          (vt100_normal_step t c).state = .Csi := by
        unfold vt100_normal_step terminal_at_xy_relative
        split_ifs <;> simp [hs]
      have h' : (vt100_overflow_clear (vt100_normal_step t c)).state = .Dectcem := h
      rw [g8] at h'
      rcases hstate with h2 | h2 <;> rw [h2] at h' <;> exact absurd h' (by decide)
  · intro t hs hc
    have e1 : feedAll t [27, 91, 63, 50, 53] =
        { t with n1 := 25, n2 := 1, command_index := 2, state := .Dectcem } := by
      simp only [feedAll_cons, feedAll_nil]
      rw [vt100_update_27 t hs hc]
      rfl
    refine ⟨by rw [e1], by rw [e1], ?_, ?_⟩
    · rw [show ([27, 91, 63, 50, 53, 104] : List Nat) =
            [27, 91, 63, 50, 53] ++ [104] from rfl, feedAll_append, e1]
      rfl
    · rw [show ([27, 91, 63, 50, 53, 108] : List Nat) =
            [27, 91, 63, 50, 53] ++ [108] from rfl, feedAll_append, e1]
      rfl

/-- Witness for C10 at the 80×40 initial screen. -/
theorem C10_cursor_flags_witness :
    (feedAll init80x40 [27, 91, 63, 50, 53, 108]).cursor_on = false ∧
    (vt100_update init80x40 65).blinks = init80x40.blinks :=
  ⟨(C10_cursor_flags.2.2.2 init80x40 (by decide) (by decide)).2.2.2,
   C10_cursor_flags.1 init80x40 65⟩

/-- The `'J'` byte (74) in state `Number1`: the C `switch` reduced to its
four-way dispatch on `n1` and `command_index`. -/
theorem seq_number_1_J (t : Vt100) :
    terminal_seq_number_1 t 74 =
      (if t.n1 = 3 ∨ t.n1 = 2 then
        (if t.command_index ≠ 0 then terminal_clear_block { t with cursor := 0 } t.size
         else terminal_clear_block { t with cursor := 0 } 0)
      else if t.n1 = 1 then
        (if t.command_index ≠ 0 then terminal_clear_block t t.size
         else terminal_clear_block t t.cursor)
      else if t.n1 = 0 then terminal_clear_block t t.cursor
      else ({ t with state := .Normal }, true)) := by
  unfold terminal_seq_number_1
  rw [if_neg (by decide), if_neg (by decide), if_neg (by decide), if_neg (by decide),
      if_neg (by decide), if_neg (by decide), if_neg (by decide), if_neg (by decide),
      if_neg (by decide), if_neg (by decide), if_neg (by decide), if_pos rfl]

/-- Claim C5: the erase-in-display dispatch of the `'J'` terminator in
state `Number1`.  With `n1 ∈ {2, 3}` and a digit supplied the cursor is
zeroed and the whole screen cleared; with `n1 = 1` and a digit supplied the
whole screen is cleared with the cursor untouched; with `n1 = 0` only the
cells `[0, cursor)` are cleared; any other `n1` fails with no screen
change.  All non-fail cases succeed (flag `false`). -/
theorem C5_erase_in_display (t : Vt100) (hst : t.state = .Number1) :
    ((t.n1 = 2 ∨ t.n1 = 3) → t.command_index ≠ 0 →
       terminal_escape_sequences t 74 =
         ({ t with cursor := 0, m := memset_block t.m t.size 32,
                   attributes := memset_block t.attributes t.size vt100_default_attribute,
                   state := .Normal }, false)) ∧
    (t.n1 = 1 → t.command_index ≠ 0 →
       terminal_escape_sequences t 74 =
         ({ t with m := memset_block t.m t.size 32,
                   attributes := memset_block t.attributes t.size vt100_default_attribute,
                   state := .Normal }, false)) ∧
    (t.n1 = 0 →
       terminal_escape_sequences t 74 =
         ({ t with m := memset_block t.m t.cursor 32,
                   attributes := memset_block t.attributes t.cursor vt100_default_attribute,
                   state := .Normal }, false)) ∧
    (t.n1 ≠ 0 → t.n1 ≠ 1 → t.n1 ≠ 2 → t.n1 ≠ 3 →
       terminal_escape_sequences t 74 = ({ t with state := .Normal }, true)) := by
  rw [esc_eq_number_1 t 74 hst, seq_number_1_J]
  refine ⟨?_, ?_, ?_, ?_⟩
  · intro h23 hci
    rw [if_pos h23.symm, if_pos hci]
    rfl
  · intro h1 hci
    rw [if_neg (by omega), if_pos h1, if_pos hci]
    rfl
  · intro h0
    rw [if_neg (by omega), if_neg (by omega), if_pos h0]
    rfl
  · intro n0 n1 n2 n3
    rw [if_neg (by omega), if_neg (by omega), if_neg (by omega)]

/-- Witness for C5: the `n1 = 0` arm on a concrete 2×2 screen in state
`Number1` with the cursor at 2 (clearing an all-space screen leaves the
cell lists unchanged in value). -/
theorem C5_erase_in_display_witness :
    terminal_escape_sequences { init_vt100 2 2 with state := TerminalState.Number1, n1 := 0, command_index := 1, cursor := 2 } 74 =
      ({ init_vt100 2 2 with state := TerminalState.Normal, n1 := 0, command_index := 1, cursor := 2 }, false) := by
  rw [(C5_erase_in_display { init_vt100 2 2 with state := TerminalState.Number1, n1 := 0, command_index := 1, cursor := 2 } rfl).2.2.1 rfl]
  decide

/-- Claim C6: `'H'` (72) and `'f'` (102) terminating a CSI in state
`Number2` position the cursor at column `n2`, row `n1`, clamped into the
screen rectangle, and succeed; on the 80×40 screen `ESC [ 999 ; 999 H`
clamps the cursor to `(79, 39)` (index 3199) and `ESC [ ; H` (defaulted
parameters `n1 = n2 = 1`) puts it at `(1, 1)` (index 81), not `(0, 0)`. -/
theorem C6_cursor_position (t : Vt100) (hst : t.state = .Number2) :
    terminal_escape_sequences t 72 =
      ({ terminal_at_xy t t.n2 t.n1 true with state := .Normal }, false) ∧
    terminal_escape_sequences t 102 =
      ({ terminal_at_xy t t.n2 t.n1 true with state := .Normal }, false) ∧
    (terminal_at_xy t t.n2 t.n1 true).cursor =
      min t.n1 (t.height - 1) * t.width + min t.n2 (t.width - 1) ∧
    (feedAll init80x40 [27, 91, 57, 57, 57, 59, 57, 57, 57, 72]).cursor = 3199 ∧
    (feedAll init80x40 [27, 91, 59, 72]).cursor = 81 := by
  refine ⟨?_, ?_, rfl, by decide, by decide⟩
  · rw [esc_eq_number_2 t 72 hst]
    unfold terminal_seq_number_2
    rw [if_neg (by decide), if_neg (by decide), if_pos (by decide)]
  · rw [esc_eq_number_2 t 102 hst]
    unfold terminal_seq_number_2
    rw [if_neg (by decide), if_neg (by decide), if_pos (by decide)]

/-- Witness for C6 in a concrete `Number2` state. -/
theorem C6_cursor_position_witness :
    (feedAll init80x40 [27, 91, 57, 57, 57, 59, 57, 57, 57, 72]).cursor = 3199 :=
  (C6_cursor_position
    { init_vt100 2 2 with state := TerminalState.Number2, n1 := 3, n2 := 5 }
    rfl).2.2.2.1

/-- Claim C3 (code evaluation at the failing input): on the 80×40 screen,
after a LF the cursor is at row 1; feeding `ESC [ 1 E` then leaves the
cursor at index 80 (column 0, row `1 % 40 = 1`), because the code calls the
absolute `terminal_at_xy(t, 0, n1, false)`; the claim (row += n1, i.e. row
2, index 160) does not hold.  Even from row 3 (three LFs) the result is
still index 80, showing the row is set absolutely, not relatively. -/
theorem C3_E_is_absolute :
    (feedAll init80x40 [10, 27, 91, 49, 69]).cursor = 80 ∧
    (feedAll init80x40 [10, 10, 10, 27, 91, 49, 69]).cursor = 80 := by
  constructor <;> decide

/-- Claim C4 (code evaluation at the failing input): on the 80×40 screen,
after a LF (row 1), feeding `ESC [ 1 F` leaves the cursor at index 1200
(row `(2^32 - 1) % 40 = 15`), because the code passes the unsigned negation
`-n1` to the absolute `terminal_at_xy(t, 0, -n1, false)`; the claim
(row -= n1, i.e. row 0, index 0) does not hold. -/
theorem C4_F_is_absolute :
    (feedAll init80x40 [10, 27, 91, 49, 70]).cursor = 1200 := by
  decide

/-- Counterexample to claim C7 as stated: feeding the full byte string
`ESC [ 1 2 3 4 5 A` to the fresh 80×40 screen does change the screen — the
parser fails at the fifth digit and the trailing `'A'` is consumed in
Normal mode as a literal glyph, so the cursor moves to 1 and `'A'` is
stored at cell 0. -/
theorem C7_counterexample :
    (feedAll init80x40 [27, 91, 49, 50, 51, 52, 53, 65]).cursor ≠ init80x40.cursor ∧
    (feedAll init80x40 [27, 91, 49, 50, 51, 52, 53, 65]).m ≠ init80x40.m := by
  constructor <;> decide

/-- Claim C7 as amended: a fifth digit fed to `n1` or `n2`
(`command_index` already above 3) fails the sequence with no screen change
— feeding `ESC [ 1 2 3 4 5` leaves screen and cursor unchanged and the
parser in `Normal`; the subsequent `'A'` is then processed in Normal mode
and written to the screen as a literal glyph (cursor 1, `'A'` at cell 0). -/
theorem C7_digit_overflow :
    (∀ t c, t.state = .Number1 ∨ t.state = .Number2 → isdigit c = true →
        t.command_index > 3 →
        terminal_escape_sequences t c = ({ t with state := .Normal }, true)) ∧
    screen_eq (feedAll (init_vt100 4 4) [27, 91, 49, 50, 51, 52, 53]) (init_vt100 4 4) ∧
    (feedAll init80x40 [27, 91, 49, 50, 51, 52, 53]).state = .Normal ∧
    (feedAll (init_vt100 4 4) [27, 91, 49, 50, 51, 52, 53, 65]).m =
      (List.replicate 16 32).set 0 65 ∧
    (feedAll init80x40 [27, 91, 49, 50, 51, 52, 53, 65]).cursor = 1 := by
  refine ⟨?_, by decide, by decide, by decide, by decide⟩
  intro t c hst hdig hci
  rcases hst with h | h
  · rw [esc_eq_number_1 t c h]
    unfold terminal_seq_number_1
    rw [if_pos hdig, if_pos hci]
  · rw [esc_eq_number_2 t c h]
    unfold terminal_seq_number_2
    rw [if_pos hdig, if_pos hci]

/-- Witness for the amended C7 at a concrete overflowing state. -/
theorem C7_digit_overflow_witness :
    terminal_escape_sequences { init_vt100 2 2 with state := TerminalState.Number1, n1 := 1234, command_index := 4 } 53 =
      ({ init_vt100 2 2 with state := TerminalState.Normal, n1 := 1234, command_index := 4 }, true) := by
  rw [C7_digit_overflow.1 { init_vt100 2 2 with state := TerminalState.Number1, n1 := 1234, command_index := 4 } 53
      (Or.inl rfl) (by decide) (by decide)]

/-- Counterexample to claim C9 as stated: on a FifoQueue of capacity
`N = 2`, the first push from empty is accepted but the second push — still
one of "the first N pushes" — is rejected, because the head/tail ring
representation reports full at `N - 1` stored elements. -/
theorem C9_counterexample :
    (fifo_push (fifo_new 2) 7).2 = 1 ∧
    (fifo_push (fifo_push (fifo_new 2) 7).1 8).2 = 0 := by
  constructor <;> decide

theorem fifo_is_full_iff (f : fifo_t) :
    fifo_is_full f = true ↔
      ((f.head = f.size - 1 ∧ f.tail = 0) ∨ f.head = size_t_sub_one f.tail) := by
  unfold fifo_is_full
  simp [Bool.or_eq_true, Bool.and_eq_true, beq_iff_eq]

theorem fifo_push_rep_state (n d : Nat) (h2 : 2 ≤ n)
    (hn : n ≤ 18446744073709551615) :
    ∀ k, k ≤ n - 1 →
      (fifo_push_rep (fifo_new n) d k).head = k ∧
      (fifo_push_rep (fifo_new n) d k).tail = 0 ∧
      (fifo_push_rep (fifo_new n) d k).size = n := by
  intro k
  induction k with
  | zero => intro _; exact ⟨rfl, rfl, rfl⟩
  | succ k ih =>
    intro hk
    obtain ⟨ih1, ih2, ih3⟩ := ih (by omega)
    have hnotfull : ¬ fifo_is_full (fifo_push_rep (fifo_new n) d k) = true := by
      rw [fifo_is_full_iff, ih1, ih2, ih3]
      unfold size_t_sub_one
      rw [if_pos rfl]
      omega
    have hstep : fifo_push_rep (fifo_new n) d (k + 1) =
        (fifo_push (fifo_push_rep (fifo_new n) d k) d).1 := rfl
    have hpush : (fifo_push (fifo_push_rep (fifo_new n) d k) d).1 =
        { fifo_push_rep (fifo_new n) d k with
          buffer := (fifo_push_rep (fifo_new n) d k).buffer.set
            (fifo_push_rep (fifo_new n) d k).head d,
          head := if (fifo_push_rep (fifo_new n) d k).head + 1 =
              (fifo_push_rep (fifo_new n) d k).size then 0
            else (fifo_push_rep (fifo_new n) d k).head + 1 } := by
      unfold fifo_push
      rw [if_neg hnotfull]
    refine ⟨?_, ?_, ?_⟩
    · rw [hstep, hpush]
      show (if (fifo_push_rep (fifo_new n) d k).head + 1 =
            (fifo_push_rep (fifo_new n) d k).size then 0
          else (fifo_push_rep (fifo_new n) d k).head + 1) = k + 1
      rw [ih1, ih3, if_neg (by omega)]
    · rw [hstep, hpush]
      exact ih2
    · rw [hstep, hpush]
      exact ih3

/-- Claim C9 as amended: a FifoQueue of capacity `N ≥ 2` stores at most
`N - 1` bytes; from empty, each of the first `N - 1` pushes is accepted and
the `N`-th push is rejected; push on a full queue returns 0 and leaves the
queue unchanged; pop on an empty queue returns 0. -/
theorem C9_fifo_ring :
    (∀ n d k, 2 ≤ n → n ≤ 18446744073709551615 → k < n - 1 →
       (fifo_push (fifo_push_rep (fifo_new n) d k) d).2 = 1) ∧
    (∀ n d, 2 ≤ n → n ≤ 18446744073709551615 →
       (fifo_push (fifo_push_rep (fifo_new n) d (n - 1)) d).2 = 0) ∧
    (∀ f d, fifo_is_full f = true → fifo_push f d = (f, 0)) ∧
    (∀ f, fifo_is_empty f = true → fifo_pop f = (f, 0, none)) := by
  refine ⟨?_, ?_, ?_, ?_⟩
  · intro n d k h2 hn hk
    obtain ⟨s1, s2, s3⟩ := fifo_push_rep_state n d h2 hn k (by omega)
    have hnotfull : ¬ fifo_is_full (fifo_push_rep (fifo_new n) d k) = true := by
      rw [fifo_is_full_iff, s1, s2, s3]
      unfold size_t_sub_one
      rw [if_pos rfl]
      omega
    unfold fifo_push
    rw [if_neg hnotfull]
  · intro n d h2 hn
    obtain ⟨s1, s2, s3⟩ := fifo_push_rep_state n d h2 hn (n - 1) (Nat.le_refl _)
    have hfull : fifo_is_full (fifo_push_rep (fifo_new n) d (n - 1)) = true := by
      rw [fifo_is_full_iff, s1, s2, s3]
      exact Or.inl ⟨rfl, rfl⟩
    unfold fifo_push
    rw [if_pos hfull]
  · intro f d h
    unfold fifo_push
    rw [if_pos h]
  · intro f h
    unfold fifo_pop
    rw [if_pos h]

/-- Witness for the amended C9 on a capacity-2 queue. -/
theorem C9_fifo_ring_witness :
    (fifo_push (fifo_push_rep (fifo_new 2) 7 0) 7).2 = 1 ∧
    (fifo_push (fifo_push_rep (fifo_new 2) 7 1) 7).2 = 0 :=
  ⟨C9_fifo_ring.1 2 7 0 (by decide) (by decide) (by decide),
   C9_fifo_ring.2.1 2 7 (by decide) (by decide)⟩
